import Mathlib

/-!
Verification development for the QuickServe file-sharing server
(`src/backend/quickserve.py`).  The definitions below are a shallow
embedding of the access-control and safe-filesystem layer: the path
containment pipeline (`clean_path` / `get_absolute_path`), the
brute-force guard (`BruteForceProtection`), authentication
(`authenticate_user`), JWT issuance/verification, the recycle-bin and
upload collision-renaming loops, and the HTTP route wrappers that map
guard failures to status codes.  Filesystem and network I/O are passed
in as explicit collaborator functions; times are integer seconds.
-/

namespace QuickServe

/-! ## Character-level string helpers (Python `str` operations) -/

/-- Python `str.strip()`: drop whitespace from both ends. -/
def pyStrip (s : String) : String :=
  ⟨((s.data.dropWhile Char.isWhitespace).reverse.dropWhile Char.isWhitespace).reverse⟩

/-- Python `str.split(sep)` for a single-character separator, on char lists.
`splitOnChar '/' "".data = [[]]` and `splitOnChar '/' "/a".data = [[], ['a']]`,
matching Python. -/
def splitOnChar (sep : Char) : List Char → List (List Char)
  | [] => [[]]
  | c :: rest =>
    let r := splitOnChar sep rest
    if c = sep then [] :: r
    else
      match r with
      | [] => [[c]]
      | h :: t => (c :: h) :: t

/-- Python `"/".join(comps)` on char lists. -/
def joinComps : List (List Char) → List Char
  | [] => []
  | [c] => c
  | c :: rest => c ++ '/' :: joinComps rest

/-! ## `posixpath` model (lexical path algebra used by the source) -/

/-- Model of `posixpath.normpath`: lexical normalization collapsing `.`/`..`/`//`
segments, mirroring CPython's algorithm. -/
def normpath (p : String) : String :=
  if p = "" then "."
  else
    let cs := p.data
    let initialSlashes : Nat :=
      if List.isPrefixOf ['/'] cs then
        if List.isPrefixOf ['/', '/'] cs ∧ ¬ List.isPrefixOf ['/', '/', '/'] cs then 2 else 1
      else 0
    let comps := splitOnChar '/' cs
    let newComps :=
      comps.foldl (fun acc comp =>
        if comp = [] ∨ comp = ['.'] then acc
        else if comp ≠ ['.', '.'] ∨ (initialSlashes = 0 ∧ acc = []) ∨
                (acc ≠ [] ∧ acc.getLast? = some ['.', '.']) then acc ++ [comp]
        else if acc ≠ [] then acc.dropLast
        else acc) []
    let res := List.replicate initialSlashes '/' ++ joinComps newComps
    if res = [] then "." else ⟨res⟩

/-- Model of `posixpath.join` for two components. -/
def joinPath (a b : String) : String :=
  if b.data.head? = some '/' then b
  else if a = "" ∨ a.data.getLast? = some '/' then a ++ b
  else a ++ "/" ++ b

/-! ## `FileSystemService` path guard -/

/-- Model of `FileSystemService.clean_path`: empty/`"/"` become the root sentinel,
otherwise strip whitespace, strip leading slashes, and normalize
backslashes to forward slashes. -/
def clean_path (path : String) : String :=
  if path = "" ∨ path = "/" then ""
  else
    let stripped := (pyStrip path).data.dropWhile (fun c => c = '/')
    ⟨stripped.map (fun c => if c = '\\' then '/' else c)⟩

/-- Model of `FileSystemService.get_absolute_path`: join against the server root,
lexically normalize, and return the result only when the server root is
a string prefix of it (`str.startswith`); `none` models the raised
`ValueError("Invalid path")`. -/
def get_absolute_path (server_root : String) (cp : String) : Option String :=
  if cp = "" then some server_root
  else
    let absolute_path := normpath (joinPath server_root cp)
    if List.isPrefixOf server_root.data absolute_path.data then some absolute_path
    else none

/-- The resolution pipeline every route runs: `clean_path` then
`get_absolute_path`. -/
def resolvePath (server_root raw : String) : Option String :=
  get_absolute_path server_root (clean_path raw)

/-- Model of `FileSystemService.get_parent_path`. -/
def get_parent_path (cp : String) : String :=
  if cp = "" then ""
  else
    let parts := splitOnChar '/' cp.data
    if parts.length ≤ 1 then "" else ⟨joinComps parts.dropLast⟩

/-- Spec-side notion for claim C1: `p` is a lexical descendant of `root`
(equal to it, or extends it across a `/` separator).  Written from the
spec's words, to be compared with what `get_absolute_path` enforces. -/
def descendantOf (root p : String) : Bool :=
  p = root || List.isPrefixOf (root ++ "/").data p.data

/-! ## `BruteForceProtection` -/

/-- Configuration of `BruteForceProtection` (`config.get(...)` defaults
are applied at construction). -/
structure BFConfig where
  enabled : Bool
  max_attempts_before_cooldown : Nat
  initial_cooldown : Nat
  cooldown_increment : Nat
  max_attempts_before_lockout : Nat
  lockout_duration : Nat
deriving DecidableEq

/-- The per-user entry of `self.failed_attempts`. -/
structure FailData where
  attempts : Nat
  last_attempt : Nat
  cooldown_until : Nat
deriving DecidableEq

/-- Mutable state of a `BruteForceProtection` instance: the
`failed_attempts` and `lockouts` dictionaries, keyed by username
(a lockout entry is `(lock_time, attempts)`). -/
structure BFState where
  failed_attempts : String → Option FailData
  lockouts : String → Option (Nat × Nat)

/-- State at construction: both dictionaries empty. -/
def BFState.init : BFState := ⟨fun _ => none, fun _ => none⟩

/-- Dictionary update `d[u] = v` (or `del d[u]` with `v = none`). -/
def setKey {α : Type} (f : String → Option α) (u : String) (v : Option α) :
    String → Option α :=
  fun x => if x = u then v else f x

/-- Model of `BruteForceProtection.is_locked`.  Returns the (possibly purged)
state together with `(locked, message)`; the stale-lockout branch
deletes both the lockout and the failure record. -/
def is_locked (cfg : BFConfig) (s : BFState) (username : String) (now : Nat) :
    BFState × Bool × String :=
  if cfg.enabled = false then (s, false, "")
  else
    match s.lockouts username with
    | some (lock_time, _attempts) =>
      if now - lock_time < cfg.lockout_duration then
        let remaining := cfg.lockout_duration - (now - lock_time)
        (s, true,
          "Account locked for " ++ toString (remaining / 3600) ++ "h " ++
            toString (remaining % 3600 / 60) ++ "m due to too many failed attempts")
      else
        (⟨setKey s.failed_attempts username none, setKey s.lockouts username none⟩,
          false, "")
    | none => (s, false, "")

/-- Model of `BruteForceProtection.record_failed_attempt`.  Returns the new state
together with `(blocked, message)`.  Note the source checks the cooldown
threshold before the lockout threshold and returns from whichever
branch fires first. -/
def record_failed_attempt (cfg : BFConfig) (s : BFState) (username : String)
    (now : Nat) : BFState × Bool × String :=
  if cfg.enabled = false then (s, false, "")
  else
    let data := (s.failed_attempts username).getD ⟨0, 0, 0⟩
    if now < data.cooldown_until then
      ({ s with failed_attempts := setKey s.failed_attempts username (some data) },
        true,
        "Please wait " ++ toString (data.cooldown_until - now) ++
          " seconds before trying again")
    else
      let attempts := data.attempts + 1
      if cfg.max_attempts_before_cooldown ≤ attempts then
        let cooldown_time := cfg.initial_cooldown +
          (attempts - cfg.max_attempts_before_cooldown) * cfg.cooldown_increment
        ({ s with failed_attempts :=
            setKey s.failed_attempts username (some ⟨attempts, now, now + cooldown_time⟩) },
          true,
          "Too many attempts. Please wait " ++ toString cooldown_time ++ " seconds")
      else if cfg.max_attempts_before_lockout ≤ attempts then
        (⟨setKey s.failed_attempts username (some ⟨attempts, now, data.cooldown_until⟩),
            setKey s.lockouts username (some (now, attempts))⟩,
          true,
          "Account locked for " ++ toString (cfg.lockout_duration / 3600) ++
            " hours due to too many failed attempts")
      else
        ({ s with failed_attempts :=
            setKey s.failed_attempts username (some ⟨attempts, now, data.cooldown_until⟩) },
          false, "Invalid credentials")

/-- Model of `BruteForceProtection.record_successful_attempt`: deletes both
records for the username. -/
def record_successful_attempt (cfg : BFConfig) (s : BFState) (username : String) :
    BFState :=
  if cfg.enabled = false then s
  else ⟨setKey s.failed_attempts username none, setKey s.lockouts username none⟩

/-- States reachable from construction through the guard's three
operations. -/
inductive Reachable (cfg : BFConfig) : BFState → Prop
  | init : Reachable cfg BFState.init
  | failed (s : BFState) (u : String) (now : Nat) :
      Reachable cfg s → Reachable cfg (record_failed_attempt cfg s u now).1
  | success (s : BFState) (u : String) :
      Reachable cfg s → Reachable cfg (record_successful_attempt cfg s u)
  | locked (s : BFState) (u : String) (now : Nat) :
      Reachable cfg s → Reachable cfg (is_locked cfg s u now).1

/-- Running a list of failed attempts (one `record_failed_attempt` per
listed timestamp) for a fixed username. -/
def runFailures (cfg : BFConfig) (u : String) : BFState → List Nat → BFState
  | s, [] => s
  | s, t :: ts => runFailures cfg u (record_failed_attempt cfg s u t).1 ts

/-- A trace of repeated failures at times `times 0, times 1, ...` for a
fixed username, starting from the clean state. -/
def failTrace (cfg : BFConfig) (u : String) (times : Nat → Nat) : Nat → BFState
  | 0 => BFState.init
  | k + 1 => (record_failed_attempt cfg (failTrace cfg u times k) u (times k)).1

/-- The brute-force policy named by the spec's scenario (also the
source's `config.get` defaults). -/
def defaultBF : BFConfig :=
  { enabled := true
    max_attempts_before_cooldown := 3
    initial_cooldown := 10
    cooldown_increment := 10
    max_attempts_before_lockout := 10
    lockout_duration := 86400 }

/-! ## `AuthenticationService` -/

/-- Model of `UserPermissions`. -/
structure UserPermissions where
  can_upload : Bool
  can_download : Bool
  can_see_preview : Bool
  can_delete : Bool
deriving DecidableEq

/-- A stored user entry: either a bare password-hash string (legacy) or a
structured record.  The record carries the values after the source's
`.get(..., default)` calls have been applied. -/
inductive UserEntry
  | raw (hash : String)
  | dict (password : String)
      (can_upload can_download can_see_preview can_delete : Bool)
deriving DecidableEq

/-- The stored hash the presented credential is compared against
(`user_data.get("password", "")` resp. the bare string). -/
def UserEntry.storedHash : UserEntry → String
  | .raw h => h
  | .dict p _ _ _ _ => p

/-- The `UserPermissions` built for the entry (all-true for a legacy
bare-string entry). -/
def UserEntry.perms : UserEntry → UserPermissions
  | .raw _ => ⟨true, true, true, true⟩
  | .dict _ up dn pv del => ⟨up, dn, pv, del⟩

/-- Model of `AuthenticationService.authenticate_user`.  `checkpw` is the external
`bcrypt.checkpw` collaborator (the `try`/`except → False` of
`verify_password_hash` is absorbed into it); `users` is the read-only
credential store.  Returns the new guard state together with the
source's `(authenticated, message, permissions)` triple. -/
def authenticate_user (checkpw : String → String → Bool) (cfg : BFConfig)
    (users : String → Option UserEntry) (s : BFState)
    (username password_hash : String) (now : Nat) :
    BFState × Bool × Option String × Option UserPermissions :=
  let l := is_locked cfg s username now
  if l.2.1 then (l.1, false, some l.2.2, none)
  else
    match users username with
    | none =>
      let r := record_failed_attempt cfg l.1 username now
      (r.1, false, some (if r.2.1 then r.2.2 else "Invalid credentials"), none)
    | some user_data =>
      if checkpw password_hash user_data.storedHash then
        (record_successful_attempt cfg l.1 username, true, none, some user_data.perms)
      else
        let r := record_failed_attempt cfg l.1 username now
        (r.1, false, some (if r.2.1 then r.2.2 else "Invalid credentials"), none)

/-! ## JWT session tokens -/

/-- Model of `JWT_EXPIRY_HOURS`. -/
def JWT_EXPIRY_HOURS : Nat := 24

/-- The claims carried by a token: username, permission snapshot, and
absolute expiry timestamp. -/
structure JwtPayload where
  username : String
  permissions : UserPermissions
  exp : Nat
deriving DecidableEq

/-- Modelled from the spec: the external `jwt` library's HS256 HMAC is
not in the repository, so signing is modelled as an ideal MAC — the
signature determines exactly the signing secret and the signed payload
(symbolic-cryptography idealization of an unforgeable MAC). -/
def hmacSign (secret : String) (p : JwtPayload) : String × JwtPayload :=
  (secret, p)

/-- A signed token: payload plus signature. -/
structure JwtToken where
  payload : JwtPayload
  sig : String × JwtPayload
deriving DecidableEq

/-- Model of `create_jwt_token`: payload is username, permission snapshot, and
`now + 24h`, signed with the process-lifetime secret. -/
def create_jwt_token (secret : String) (now : Nat) (username : String)
    (permissions : UserPermissions) : JwtToken :=
  let payload : JwtPayload := ⟨username, permissions, now + JWT_EXPIRY_HOURS * 3600⟩
  ⟨payload, hmacSign secret payload⟩

/-- Failure kinds of `jwt.decode`: `jwt.ExpiredSignatureError` and
`jwt.InvalidTokenError`, the two exceptions `verify_jwt_token`
distinguishes in its `except` clauses. -/
inductive JwtError
  | expired
  | invalid
deriving DecidableEq

/-- Modelled from the spec: the external `jwt.decode` checks the
signature first, then the expiry, and raises the corresponding error. -/
def jwt_decode (secret : String) (now : Nat) (t : JwtToken) :
    Except JwtError JwtPayload :=
  if t.sig = hmacSign secret t.payload then
    if t.payload.exp ≤ now then .error .expired else .ok t.payload
  else .error .invalid

/-- Model of `verify_jwt_token`: both `except` branches collapse to `None`. -/
def verify_jwt_token (secret : String) (now : Nat) (t : JwtToken) :
    Option JwtPayload :=
  (jwt_decode secret now t).toOption

/-! ## `os.path.splitext` and the collision-renaming loops -/

/-- Index of the last occurrence of `c`. -/
def rfindPos (c : Char) : List Char → Option Nat
  | [] => none
  | x :: xs =>
    match rfindPos c xs with
    | some i => some (i + 1)
    | none => if x = c then some 0 else none

/-- Model of `posixpath.splitext`: split off the extension at the last dot,
provided some non-dot character precedes it within the basename. -/
def splitext (p : String) : String × String :=
  let cs := p.data
  match rfindPos '.' cs with
  | none => (p, "")
  | some dotIndex =>
    let filenameIndex := match rfindPos '/' cs with
      | none => 0
      | some sepIndex => sepIndex + 1
    if filenameIndex ≤ dotIndex ∧
        (List.range' filenameIndex (dotIndex - filenameIndex)).any
          (fun j => cs.get? j ≠ some '.') then
      (⟨cs.take dotIndex⟩, ⟨cs.drop dotIndex⟩)
    else (p, "")

/-- The candidate name `move_to_recycle_bin` tries at loop counter
`counter`: `f"{name} ({counter}){ext}"` for a file, `f"{item_name}
({counter})"` for a directory. -/
def recycleCandidate (is_file : Bool) (item_name : String) (counter : Nat) :
    String :=
  if is_file then
    let se := splitext item_name
    se.1 ++ " (" ++ toString counter ++ ")" ++ se.2
  else item_name ++ " (" ++ toString counter ++ ")"

/-- The candidate name `upload_file` tries at loop counter `counter`:
`f"{name} ({counter}){ext}"` from `splitext(file.filename)`. -/
def uploadCandidate (filename : String) (counter : Nat) : String :=
  let se := splitext filename
  se.1 ++ " (" ++ toString counter ++ ")" ++ se.2

/-- The shared shape of both `while os.path.exists(destination)` loops:
starting from `dest` at counter `counter`, advance to `cand counter`
while the current candidate collides with an existing name.  `fuel`
bounds the iteration (the source loop runs on a finite directory, so
`existing.length + 1` steps suffice). -/
def nameLoop (existing : List String) (cand : Nat → String) :
    String → Nat → Nat → Option String
  | _, _, 0 => none
  | dest, counter, fuel + 1 =>
    if dest ∈ existing then nameLoop existing cand (cand counter) (counter + 1) fuel
    else some dest

/-- Destination name chosen by `FileSystemService.move_to_recycle_bin`
for an item named `item_name` when the recycle bin already holds
`existing`; `none` when the recycle bin is disabled (the function
returns `False` without moving). -/
def move_to_recycle_bin_dest (use_recycle_bin : Bool) (existing : List String)
    (is_file : Bool) (item_name : String) : Option String :=
  if use_recycle_bin then
    nameLoop existing (recycleCandidate is_file item_name) item_name 1
      (existing.length + 1)
  else none

/-- Destination filename chosen by `upload_file`'s collision loop when
the target directory already holds `existing`. -/
def upload_dest_name (existing : List String) (filename : String) :
    Option String :=
  nameLoop existing (uploadCandidate filename) filename 1 (existing.length + 1)

/-! ## Route wrappers (`QuickServe._setup_routes` handlers)

The filesystem collaborator is an oracle `fs : String → Option FsNode`
(`os.path.exists` / `os.path.isdir` / `os.path.isfile`); `listing`,
`binListing` and `walk` stand for the directory-enumeration I/O.  Route
results are `Except (status, detail) payload`.  An `HTTPException`
raised inside a handler's `try` block is caught by its trailing
`except Exception` clause and re-raised as a generic 500, which the
models reproduce; a `ValueError` from `get_absolute_path` is caught by
the dedicated `except ValueError` clause and becomes `403 Access
denied`. -/

/-- What `os.path` reports about an absolute path. -/
inductive FsNode
  | file
  | dir
deriving DecidableEq

/-- Model of `QuickServe.list_files`: resolve, require an existing directory,
return `(current_dir, parent_dir, listing)`. -/
def list_files_route (fs : String → Option FsNode)
    (listing : String → List String) (root path : String) :
    Except (Nat × String) (String × String × List String) :=
  match resolvePath root path with
  | none => .error (403, "Access denied")
  | some ap =>
    if fs ap = some .dir then
      .ok (clean_path path, get_parent_path (clean_path path), listing ap)
    else .error (500, "Failed to load directory contents")

/-- Model of `QuickServe.download_file`: permission gate, resolve, require an
existing file; success is the absolute path handed to `FileResponse`. -/
def download_file_route (fs : String → Option FsNode) (can_download : Bool)
    (root path : String) : Except (Nat × String) String :=
  if can_download = false then .error (403, "Download not permitted")
  else
    match resolvePath root path with
    | none => .error (403, "Access denied")
    | some ap =>
      if fs ap = some .file then .ok ap else .error (500, "Download failed")

/-- Model of `QuickServe.preview_file`: same gating as download with the
`can_see_preview` flag. -/
def preview_file_route (fs : String → Option FsNode) (can_see_preview : Bool)
    (root path : String) : Except (Nat × String) String :=
  if can_see_preview = false then .error (403, "Preview not permitted")
  else
    match resolvePath root path with
    | none => .error (403, "Access denied")
    | some ap =>
      if fs ap = some .file then .ok ap else .error (500, "Preview failed")

/-- Model of `QuickServe.upload_file`: permission gate, resolve, require an
existing directory, then the collision loop; success carries the
response's `filename` field, `os.path.basename(file_path)`. -/
def upload_file_route (fs : String → Option FsNode)
    (listing : String → List String) (can_upload : Bool)
    (root path filename : String) : Except (Nat × String) String :=
  if can_upload = false then .error (403, "Upload not permitted")
  else
    match resolvePath root path with
    | none => .error (403, "Access denied")
    | some ap =>
      if fs ap = some .dir then
        match upload_dest_name (listing ap) filename with
        | some dest => .ok dest
        | none => .error (500, "Upload failed")
      else .error (500, "Upload failed")

/-- Model of `QuickServe.delete_file`: permission gate, resolve, require
existence, then recycle-bin move or hard delete.  Success carries the
response message. -/
def delete_file_route (fs : String → Option FsNode)
    (binListing : String → List String) (use_recycle_bin can_delete : Bool)
    (root path : String) : Except (Nat × String) String :=
  if can_delete = false then .error (403, "Delete not permitted")
  else
    match resolvePath root path with
    | none => .error (403, "Access denied")
    | some ap =>
      match fs ap with
      | none => .error (500, "Delete failed")
      | some .file =>
        if use_recycle_bin then
          match move_to_recycle_bin_dest true (binListing ap) true
              (clean_path path) with
          | some _ => .ok "File deleted successfully"
          | none => .error (500, "Delete failed")
        else .ok "File deleted successfully"
      | some .dir =>
        if use_recycle_bin then
          match move_to_recycle_bin_dest true (binListing ap) false
              (clean_path path) with
          | some _ => .ok "Directory deleted successfully"
          | none => .error (500, "Delete failed")
        else .ok "Directory deleted successfully"

/-- The resolution loop at the top of `QuickServe.download_zip`. -/
def download_zip_resolve (fs : String → Option FsNode) (root : String) :
    List String → Except (Nat × String) (List String)
  | [] => .ok []
  | p :: ps =>
    match resolvePath root p with
    | none => .error (403, "Access denied")
    | some ap =>
      if (fs ap).isSome then
        match download_zip_resolve fs root ps with
        | .ok rest => .ok (ap :: rest)
        | .error e => .error e
      else .error (500, "Download failed")

/-- Model of `QuickServe.download_zip`: permission gate then per-path
resolution; success carries the resolved absolute paths to be zipped. -/
def download_zip_route (fs : String → Option FsNode) (can_download : Bool)
    (root : String) (paths : List String) :
    Except (Nat × String) (List String) :=
  if can_download = false then .error (403, "Download not permitted")
  else download_zip_resolve fs root paths

/-- Model of `FileSystemService.search_files`: a failed resolution raises
`ValueError` inside the function's own `try`, which its
`except ValueError: return results` swallows into an empty list; a
resolved non-directory also returns `[]`.  The `os.walk`-and-match
body is the `walk` collaborator. -/
def search_files (walk : String → List String) (fsIsDir : String → Bool)
    (root search_path pattern : String) : List String :=
  match resolvePath root search_path with
  | none => []
  | some ap =>
    if fsIsDir ap then
      let _ := pattern
      walk ap
    else []

/-- Model of `QuickServe.search_files_route`: pattern-length gate, then
`search_files`; the response is `(results, search_path, pattern,
count)`.  The handler's `except ValueError` clause is dead code because
`search_files` already swallowed the error. -/
def search_files_route (walk : String → List String)
    (fsIsDir : String → Bool) (root path pattern : String) :
    Except (Nat × String) (List String × String × String × Nat) :=
  if pattern = "" ∨ (pyStrip pattern).length < 2 then
    .error (400, "Search pattern must be at least 2 characters long")
  else
    let results := search_files walk fsIsDir root path (pyStrip pattern)
    .ok (results, path, pattern, results.length)

/-- Failure timestamps for the C2 scenario: user `bob` fails ten times,
each attempt made only after the previous escalating cooldown (10, 20,
..., 80 seconds) has expired. -/
def bobFailureTimes : List Nat := [0, 1, 2, 13, 34, 65, 106, 157, 218, 289]

/-! ## Helper lemmas -/

theorem BFState.ext {s t : BFState}
    (h1 : s.failed_attempts = t.failed_attempts) (h2 : s.lockouts = t.lockouts) :
    s = t := by
  cases s; cases t; simp_all

/-- Updating a key to the value it already has is the identity. -/
theorem setKey_self {α : Type} (f : String → Option α) (u : String) (v : Option α)
    (h : f u = v) : setKey f u v = f := by
  funext x
  by_cases hx : x = u <;> simp [setKey, hx, h]

/-- Helper: `is_locked` on a username with no lockout entry leaves the state
unchanged and reports not-locked. -/
theorem is_locked_no_entry (cfg : BFConfig) (s : BFState) (u : String) (now : Nat)
    (h : s.lockouts u = none) : is_locked cfg s u now = (s, false, "") := by
  unfold is_locked
  by_cases hE : cfg.enabled = false <;> simp [hE, h]

/-- When the guard is disabled, every reachable state is the initial
state: no operation ever writes to the dictionaries. -/
theorem reachable_disabled (cfg : BFConfig) (hdis : cfg.enabled = false) :
    ∀ s, Reachable cfg s → s = BFState.init := by
  intro s h
  induction h with
  | init => rfl
  | failed s u now _ ih => rw [record_failed_attempt, if_pos hdis]; exact ih
  | success s u _ ih => rw [record_successful_attempt, if_pos hdis]; exact ih
  | locked s u now _ ih => rw [is_locked, if_pos hdis]; exact ih

/-- One failed attempt outside any active cooldown: the attempt counter
increments, and once the counter reaches the cooldown threshold the
escalating cooldown is installed and the attempt is reported blocked.
Below the threshold `cooldown_until` is left as it was. -/
theorem record_failed_step (cfg : BFConfig) (s : BFState) (u : String)
    (now a l c : Nat) (hEn : cfg.enabled = true)
    (hrec : (s.failed_attempts u).getD ⟨0, 0, 0⟩ = ⟨a, l, c⟩) (hc : c ≤ now) :
    (record_failed_attempt cfg s u now).1.failed_attempts u =
      some ⟨a + 1, now,
        if a + 1 < cfg.max_attempts_before_cooldown then c
        else now + (cfg.initial_cooldown +
          (a + 1 - cfg.max_attempts_before_cooldown) * cfg.cooldown_increment)⟩
    ∧ (cfg.max_attempts_before_cooldown ≤ a + 1 →
        (record_failed_attempt cfg s u now).2.1 = true) := by
  unfold record_failed_attempt
  rw [hrec]
  have hE : ¬ cfg.enabled = false := by simp [hEn]
  have hcd : ¬ now < c := by omega
  by_cases h1 : cfg.max_attempts_before_cooldown ≤ a + 1
  · have h1' : ¬ a + 1 < cfg.max_attempts_before_cooldown := by omega
    simp [hE, hcd, h1, h1', setKey]
  · have h1' : a + 1 < cfg.max_attempts_before_cooldown := by omega
    by_cases h2 : cfg.max_attempts_before_lockout ≤ a + 1 <;>
      simp [hE, hcd, h1, h1', h2, setKey]

/-- The `(blocked, message)` part of `record_failed_attempt` depends
only on the caller's own failure record (not on the rest of the state
or the username). -/
theorem record_failed_output_eq (cfg : BFConfig) (s s' : BFState)
    (u u' : String) (now : Nat)
    (h : s.failed_attempts u = s'.failed_attempts u') :
    (record_failed_attempt cfg s u now).2 =
      (record_failed_attempt cfg s' u' now).2 := by
  unfold record_failed_attempt
  rw [h]
  by_cases hE : cfg.enabled = false
  · simp [hE]
  · set d := (s'.failed_attempts u').getD ⟨0, 0, 0⟩ with hd
    by_cases h1 : now < d.cooldown_until
    · simp [hE, h1]
    · by_cases h2 : cfg.max_attempts_before_cooldown ≤ d.attempts + 1
      · simp [hE, h1, h2]
      · by_cases h3 : cfg.max_attempts_before_lockout ≤ d.attempts + 1 <;>
          simp [hE, h1, h2, h3]

/-- What the `while os.path.exists(destination)` loop shape guarantees
when it returns a destination: the destination is free, and it is
either the original name (no collision) or the candidate at the
smallest counter among those from `counter` upward. -/
theorem nameLoop_spec (existing : List String) (cand : Nat → String) :
    ∀ (fuel : Nat) (dest : String) (counter : Nat) (r : String),
      nameLoop existing cand dest counter fuel = some r →
      r ∉ existing ∧
        (r = dest ∨ (dest ∈ existing ∧ ∃ k, counter ≤ k ∧ r = cand k ∧
          ∀ j, counter ≤ j → j < k → cand j ∈ existing)) := by
  intro fuel
  induction fuel with
  | zero => intro dest counter r h; exact absurd h (by simp [nameLoop])
  | succ n ih =>
    intro dest counter r h
    unfold nameLoop at h
    by_cases hd : dest ∈ existing
    · rw [if_pos hd] at h
      obtain ⟨hnot, hcase⟩ := ih (cand counter) (counter + 1) r h
      refine ⟨hnot, Or.inr ⟨hd, ?_⟩⟩
      rcases hcase with heq | ⟨hcmem, k, hk, hrk, hall⟩
      · exact ⟨counter, le_refl _, heq, fun j hj1 hj2 => absurd hj2 (by omega)⟩
      · refine ⟨k, by omega, hrk, fun j hj1 hj2 => ?_⟩
        rcases eq_or_lt_of_le hj1 with rfl | hlt
        · exact hcmem
        · exact hall j (by omega) hj2
    · rw [if_neg hd] at h
      cases h
      exact ⟨hd, Or.inl rfl⟩

/-! ## Claim theorems -/

/-- C1: the path-resolution pipeline is claimed to fail closed or return
a lexical descendant of the server root for every raw input, sibling
directories whose names extend the root as a string prefix included.
The code violates this: against root `/srv/share`, the raw input
`../share-evil` resolves to `/srv/share-evil` — accepted by the bare
`startswith` prefix check, yet outside the root. -/
theorem c1_sibling_prefix_escape :
    resolvePath "/srv/share" "../share-evil" = some "/srv/share-evil"
    ∧ descendantOf "/srv/share" "/srv/share-evil" = false := by
  constructor <;> rfl

/-- C2: the claim says ten cumulative failures (under the spec's
scenario policy) lock the account for `lockout_duration` seconds.  In
the code the lockout branch of `record_failed_attempt` is checked only
after the cooldown branch has already returned, so with
`max_attempts_before_cooldown = 3 ≤ max_attempts_before_lockout = 10`
no lockout is ever created: after ten failures (each made after the
previous cooldown expired) the attempt counter reads 10, the `lockouts`
dictionary is still empty, and `is_locked` reports not-locked even long
after every cooldown has expired. -/
theorem c2_lockout_branch_dead :
    (runFailures defaultBF "bob" BFState.init bobFailureTimes).failed_attempts "bob"
      = some ⟨10, 289, 369⟩
    ∧ (runFailures defaultBF "bob" BFState.init bobFailureTimes).lockouts "bob" = none
    ∧ (is_locked defaultBF (runFailures defaultBF "bob" BFState.init bobFailureTimes)
        "bob" 100000).2.1 = false := by
  refine ⟨by decide, by decide, by decide⟩

/-- C3 counterexample: the claim says every file operation, search
included, rejects a path that resolves outside the server root with
`AccessDenied` (HTTP 403).  The search route does not: `search_files`
swallows the `ValueError` from `get_absolute_path` and returns an empty
result list, so the route answers 200 with zero results instead of 403
for `../../etc/passwd` against root `/srv/share`. -/
theorem c3_search_returns_ok :
    search_files_route (fun _ => ["passwd"]) (fun _ => true) "/srv/share"
        "../../etc/passwd" "passwd"
      = .ok ([], "../../etc/passwd", "passwd", 0)
    ∧ search_files_route (fun _ => ["passwd"]) (fun _ => true) "/srv/share"
        "../../etc/passwd" "passwd"
      ≠ .error (403, "Access denied") := by
  refine ⟨rfl, fun h => ?_⟩
  rw [show search_files_route (fun _ => ["passwd"]) (fun _ => true) "/srv/share"
        "../../etc/passwd" "passwd"
      = .ok ([], "../../etc/passwd", "passwd", 0) from rfl] at h
  exact Except.noConfusion h

/-- C3 (amended): a supplied path that resolves outside the server root
is rejected with `AccessDenied` (HTTP 403) before any filesystem access
by list, download, preview, upload, delete and zip; the search
operation instead fails closed with HTTP 200 and an empty result list,
also without any filesystem access.  The filesystem collaborators are
universally quantified, so none of them is consulted. -/
theorem c3_traversal_rejected (fs : String → Option FsNode)
    (listing binListing : String → List String) (walk : String → List String)
    (fsIsDir : String → Bool) (use_recycle_bin : Bool)
    (root p filename pattern : String) (paths : List String)
    (hres : resolvePath root p = none)
    (hpat : ¬ (pattern = "" ∨ (pyStrip pattern).length < 2)) :
    list_files_route fs listing root p = .error (403, "Access denied")
    ∧ download_file_route fs true root p = .error (403, "Access denied")
    ∧ preview_file_route fs true root p = .error (403, "Access denied")
    ∧ upload_file_route fs listing true root p filename = .error (403, "Access denied")
    ∧ delete_file_route fs binListing use_recycle_bin true root p
        = .error (403, "Access denied")
    ∧ download_zip_route fs true root (p :: paths) = .error (403, "Access denied")
    ∧ search_files walk fsIsDir root p (pyStrip pattern) = []
    ∧ search_files_route walk fsIsDir root p pattern = .ok ([], p, pattern, 0) := by
  refine ⟨?_, ?_, ?_, ?_, ?_, ?_, ?_, ?_⟩
  · simp [list_files_route, hres]
  · simp [download_file_route, hres]
  · simp [preview_file_route, hres]
  · simp [upload_file_route, hres]
  · simp [delete_file_route, hres]
  · simp [download_zip_route, download_zip_resolve, hres]
  · simp [search_files, hres]
  · simp [search_files_route, hpat, search_files, hres]

theorem c3_traversal_rejected_witness :
    (resolvePath "/srv/share" "../../etc/passwd" = none
      ∧ ¬ ("passwd" = "" ∨ (pyStrip "passwd").length < 2))
    ∧ (list_files_route (fun _ => some .dir) (fun _ => []) "/srv/share"
          "../../etc/passwd" = .error (403, "Access denied")
      ∧ download_file_route (fun _ => some .dir) true "/srv/share"
          "../../etc/passwd" = .error (403, "Access denied")
      ∧ preview_file_route (fun _ => some .dir) true "/srv/share"
          "../../etc/passwd" = .error (403, "Access denied")
      ∧ upload_file_route (fun _ => some .dir) (fun _ => []) true "/srv/share"
          "../../etc/passwd" "x.txt" = .error (403, "Access denied")
      ∧ delete_file_route (fun _ => some .dir) (fun _ => []) true true "/srv/share"
          "../../etc/passwd" = .error (403, "Access denied")
      ∧ download_zip_route (fun _ => some .dir) true "/srv/share"
          ["../../etc/passwd"] = .error (403, "Access denied")
      ∧ search_files (fun _ => ["passwd"]) (fun _ => true) "/srv/share"
          "../../etc/passwd" (pyStrip "passwd") = []
      ∧ search_files_route (fun _ => ["passwd"]) (fun _ => true) "/srv/share"
          "../../etc/passwd" "passwd"
          = .ok ([], "../../etc/passwd", "passwd", 0)) :=
  ⟨⟨by decide, by decide⟩,
    c3_traversal_rejected (fun _ => some .dir) (fun _ => []) (fun _ => [])
      (fun _ => ["passwd"]) (fun _ => true) true "/srv/share" "../../etc/passwd"
      "x.txt" "passwd" [] (by decide) (by decide)⟩

/-- C4: starting from a clean state, repeated failures (each recorded
after the previous cooldown, if any, has expired) drive the failure
record to `attempts = k` after `k` calls; from the cooldown threshold
onward the call is blocked and installs `cooldown_until = now +
initial_cooldown + (attempts - threshold) * cooldown_increment`, a
future instant (Cooling) whose delay grows by exactly
`cooldown_increment` per further failure. -/
theorem c4_cooldown_escalation (cfg : BFConfig) (u : String) (times : Nat → Nat)
    (hEn : cfg.enabled = true) (hInit : 1 ≤ cfg.initial_cooldown)
    (hspace : ∀ j, cfg.max_attempts_before_cooldown ≤ j + 1 →
      times j + (cfg.initial_cooldown +
        (j + 1 - cfg.max_attempts_before_cooldown) * cfg.cooldown_increment)
        ≤ times (j + 1)) :
    ∀ n,
      (failTrace cfg u times (n + 1)).failed_attempts u =
        some ⟨n + 1, times n,
          if n + 1 < cfg.max_attempts_before_cooldown then 0
          else times n + (cfg.initial_cooldown +
            (n + 1 - cfg.max_attempts_before_cooldown) * cfg.cooldown_increment)⟩
      ∧ (cfg.max_attempts_before_cooldown ≤ n + 1 →
          (record_failed_attempt cfg (failTrace cfg u times n) u (times n)).2.1 = true
          ∧ times n < times n + (cfg.initial_cooldown +
              (n + 1 - cfg.max_attempts_before_cooldown) * cfg.cooldown_increment)
          ∧ cfg.initial_cooldown +
              (n + 2 - cfg.max_attempts_before_cooldown) * cfg.cooldown_increment
            = (cfg.initial_cooldown +
                (n + 1 - cfg.max_attempts_before_cooldown) * cfg.cooldown_increment)
              + cfg.cooldown_increment) := by
  intro n
  induction n with
  | zero =>
    have hstep := record_failed_step cfg BFState.init u (times 0) 0 0 0 hEn rfl
      (Nat.zero_le _)
    refine ⟨?_, fun h => ⟨?_, ?_, ?_⟩⟩
    · simp only [failTrace]
      exact hstep.1
    · exact hstep.2 h
    · exact Nat.lt_add_of_pos_right
        (Nat.lt_of_lt_of_le hInit (Nat.le_add_right _ _))
    · have he : 0 + 2 - cfg.max_attempts_before_cooldown
          = (0 + 1 - cfg.max_attempts_before_cooldown) + 1 := by omega
      rw [he, Nat.add_mul, Nat.one_mul]
      exact (Nat.add_assoc _ _ _).symm
  | succ n ih =>
    obtain ⟨ih1, _⟩ := ih
    have hgetD : ((failTrace cfg u times (n + 1)).failed_attempts u).getD ⟨0, 0, 0⟩
        = ⟨n + 1, times n,
            if n + 1 < cfg.max_attempts_before_cooldown then 0
            else times n + (cfg.initial_cooldown +
              (n + 1 - cfg.max_attempts_before_cooldown) * cfg.cooldown_increment)⟩ := by
      rw [ih1]; rfl
    have hcle : (if n + 1 < cfg.max_attempts_before_cooldown then 0
        else times n + (cfg.initial_cooldown +
          (n + 1 - cfg.max_attempts_before_cooldown) * cfg.cooldown_increment))
        ≤ times (n + 1) := by
      by_cases h : n + 1 < cfg.max_attempts_before_cooldown
      · simp [h]
      · rw [if_neg h]
        exact hspace n (by omega)
    have hstep := record_failed_step cfg (failTrace cfg u times (n + 1)) u
      (times (n + 1)) (n + 1) (times n) _ hEn hgetD hcle
    refine ⟨?_, fun h => ⟨?_, ?_, ?_⟩⟩
    · rw [show failTrace cfg u times (n + 1 + 1)
          = (record_failed_attempt cfg (failTrace cfg u times (n + 1)) u
              (times (n + 1))).1 from rfl, hstep.1]
      have hcd : (if n + 1 + 1 < cfg.max_attempts_before_cooldown then
            (if n + 1 < cfg.max_attempts_before_cooldown then 0
              else times n + (cfg.initial_cooldown +
                (n + 1 - cfg.max_attempts_before_cooldown) * cfg.cooldown_increment))
          else times (n + 1) + (cfg.initial_cooldown +
            (n + 1 + 1 - cfg.max_attempts_before_cooldown) * cfg.cooldown_increment))
          = (if n + 1 + 1 < cfg.max_attempts_before_cooldown then 0
            else times (n + 1) + (cfg.initial_cooldown +
              (n + 1 + 1 - cfg.max_attempts_before_cooldown) * cfg.cooldown_increment)) := by
        by_cases h : n + 1 + 1 < cfg.max_attempts_before_cooldown
        · have h' : n + 1 < cfg.max_attempts_before_cooldown := by omega
          simp [h, h']
        · simp [h]
      rw [hcd]
    · exact hstep.2 h
    · exact Nat.lt_add_of_pos_right
        (Nat.lt_of_lt_of_le hInit (Nat.le_add_right _ _))
    · have he : n + 1 + 2 - cfg.max_attempts_before_cooldown
          = (n + 1 + 1 - cfg.max_attempts_before_cooldown) + 1 := by omega
      rw [he, Nat.add_mul, Nat.one_mul]
      exact (Nat.add_assoc _ _ _).symm

theorem c4_cooldown_escalation_witness :
    (failTrace defaultBF "bob" (fun j => 100 * 2 ^ j) (2 + 1)).failed_attempts "bob"
      = some ⟨3, 400, 410⟩
    ∧ (record_failed_attempt defaultBF
        (failTrace defaultBF "bob" (fun j => 100 * 2 ^ j) 2) "bob"
        ((fun j => 100 * 2 ^ j) 2)).2.1 = true := by
  have hspace : ∀ j, defaultBF.max_attempts_before_cooldown ≤ j + 1 →
      (fun j => 100 * 2 ^ j) j + (defaultBF.initial_cooldown +
        (j + 1 - defaultBF.max_attempts_before_cooldown) * defaultBF.cooldown_increment)
        ≤ (fun j => 100 * 2 ^ j) (j + 1) := by
    intro j _
    have h2 : j < 2 ^ j := Nat.lt_two_pow j
    show 100 * 2 ^ j + _ ≤ 100 * 2 ^ (j + 1)
    rw [pow_succ]
    revert h2
    generalize 2 ^ j = m
    intro h2
    simp only [defaultBF]
    omega
  have h := c4_cooldown_escalation defaultBF "bob" (fun j => 100 * 2 ^ j) rfl
    (by decide) hspace 2
  refine ⟨?_, (h.2 (by decide)).1⟩
  rw [h.1]
  norm_num [defaultBF]

/-- C5: a failure recorded while a cooldown is still active is reported
blocked with the remaining-seconds message and leaves the state exactly
as it was — no increment of the attempt counter, no extension of the
cooldown. -/
theorem c5_cooldown_no_double_count (cfg : BFConfig) (s : BFState) (u : String)
    (now : Nat) (d : FailData) (hEn : cfg.enabled = true)
    (hrec : s.failed_attempts u = some d) (hcd : now < d.cooldown_until) :
    record_failed_attempt cfg s u now =
      (s, true, "Please wait " ++ toString (d.cooldown_until - now) ++
        " seconds before trying again") := by
  have hE : ¬ cfg.enabled = false := by simp [hEn]
  have hgetD : (s.failed_attempts u).getD ⟨0, 0, 0⟩ = d := by rw [hrec]; rfl
  simp only [record_failed_attempt, if_neg hE, hgetD, if_pos hcd]
  rw [setKey_self _ _ _ hrec]

theorem c5_cooldown_no_double_count_witness :
    (defaultBF.enabled = true
      ∧ (BFState.mk (setKey (fun _ => none) "bob" (some ⟨3, 0, 12⟩)) (fun _ => none)
          ).failed_attempts "bob" = some ⟨3, 0, 12⟩
      ∧ 5 < (FailData.mk 3 0 12).cooldown_until)
    ∧ record_failed_attempt defaultBF
        (BFState.mk (setKey (fun _ => none) "bob" (some ⟨3, 0, 12⟩)) (fun _ => none))
        "bob" 5
      = (BFState.mk (setKey (fun _ => none) "bob" (some ⟨3, 0, 12⟩)) (fun _ => none),
          true, "Please wait " ++ toString ((FailData.mk 3 0 12).cooldown_until - 5) ++
            " seconds before trying again") :=
  ⟨⟨rfl, by decide, by decide⟩,
    c5_cooldown_no_double_count defaultBF
      (BFState.mk (setKey (fun _ => none) "bob" (some ⟨3, 0, 12⟩)) (fun _ => none))
      "bob" 5 ⟨3, 0, 12⟩ rfl (by decide) (by decide)⟩

/-- C6: from any reachable guard state, a successful attempt leaves the
username with no failure record and no lockout record, `is_locked`
subsequently reports not-locked, and a second successful attempt
changes nothing. -/
theorem c6_success_full_reset (cfg : BFConfig) (s : BFState) (u : String)
    (now : Nat) (h : Reachable cfg s) :
    (record_successful_attempt cfg s u).failed_attempts u = none
    ∧ (record_successful_attempt cfg s u).lockouts u = none
    ∧ (is_locked cfg (record_successful_attempt cfg s u) u now).2.1 = false
    ∧ record_successful_attempt cfg (record_successful_attempt cfg s u) u
        = record_successful_attempt cfg s u := by
  by_cases hE : cfg.enabled = false
  · have hs := reachable_disabled cfg hE s h
    subst hs
    simp [record_successful_attempt, hE, is_locked, BFState.init]
  · have h1 : (record_successful_attempt cfg s u).failed_attempts u = none := by
      simp [record_successful_attempt, hE, setKey]
    have h2 : (record_successful_attempt cfg s u).lockouts u = none := by
      simp [record_successful_attempt, hE, setKey]
    refine ⟨h1, h2, ?_, ?_⟩
    · rw [is_locked_no_entry cfg _ u now h2]
    · refine BFState.ext ?_ ?_ <;>
        · funext x
          by_cases hx : x = u <;> simp [record_successful_attempt, hE, setKey, hx]

theorem c6_success_full_reset_witness :
    (record_successful_attempt defaultBF BFState.init "alice").failed_attempts "alice"
      = none
    ∧ (record_successful_attempt defaultBF BFState.init "alice").lockouts "alice" = none
    ∧ (is_locked defaultBF (record_successful_attempt defaultBF BFState.init "alice")
        "alice" 0).2.1 = false
    ∧ record_successful_attempt defaultBF
        (record_successful_attempt defaultBF BFState.init "alice") "alice"
      = record_successful_attempt defaultBF BFState.init "alice" :=
  c6_success_full_reset defaultBF BFState.init "alice" 0 Reachable.init

/-- C7: a freshly issued token decodes successfully to the same username
and permission snapshot; once the clock passes the 24-hour TTL the
decode fails with the expired error (and the `verify_jwt_token` wrapper
returns `None`); a token whose payload was tampered with fails the
signature check with the invalid error. -/
theorem c7_token_lifecycle (secret username : String) (perms : UserPermissions)
    (now later : Nat) (p2 : JwtPayload)
    (hlate : now + JWT_EXPIRY_HOURS * 3600 ≤ later)
    (htamper : p2 ≠ (create_jwt_token secret now username perms).payload) :
    jwt_decode secret now (create_jwt_token secret now username perms)
      = .ok ⟨username, perms, now + JWT_EXPIRY_HOURS * 3600⟩
    ∧ verify_jwt_token secret now (create_jwt_token secret now username perms)
      = some ⟨username, perms, now + JWT_EXPIRY_HOURS * 3600⟩
    ∧ jwt_decode secret later (create_jwt_token secret now username perms)
      = .error .expired
    ∧ verify_jwt_token secret later (create_jwt_token secret now username perms)
      = none
    ∧ jwt_decode secret later ⟨p2, (create_jwt_token secret now username perms).sig⟩
      = .error .invalid := by
  have hfresh : ¬ now + JWT_EXPIRY_HOURS * 3600 ≤ now := by
    simp [JWT_EXPIRY_HOURS]
  have hsig : (⟨p2, (create_jwt_token secret now username perms).sig⟩ : JwtToken).sig
      ≠ hmacSign secret p2 := by
    simp only [create_jwt_token, hmacSign]
    intro hc
    exact htamper ((congrArg Prod.snd hc).symm)
  refine ⟨?_, ?_, ?_, ?_, ?_⟩
  · simp [jwt_decode, create_jwt_token, hfresh]
  · simp [verify_jwt_token, jwt_decode, create_jwt_token, hfresh, Except.toOption]
  · simp [jwt_decode, create_jwt_token, hlate]
  · simp [verify_jwt_token, jwt_decode, create_jwt_token, hlate, Except.toOption]
  · simp only [jwt_decode, if_neg hsig]

theorem c7_token_lifecycle_witness :
    (0 + JWT_EXPIRY_HOURS * 3600 ≤ 86400
      ∧ (⟨"mallory", ⟨true, true, true, true⟩, 86400⟩ : JwtPayload)
        ≠ (create_jwt_token "secret" 0 "alice" ⟨true, true, true, true⟩).payload)
    ∧ (jwt_decode "secret" 0 (create_jwt_token "secret" 0 "alice" ⟨true, true, true, true⟩)
        = .ok ⟨"alice", ⟨true, true, true, true⟩, 0 + JWT_EXPIRY_HOURS * 3600⟩
      ∧ verify_jwt_token "secret" 0
          (create_jwt_token "secret" 0 "alice" ⟨true, true, true, true⟩)
        = some ⟨"alice", ⟨true, true, true, true⟩, 0 + JWT_EXPIRY_HOURS * 3600⟩
      ∧ jwt_decode "secret" 86400
          (create_jwt_token "secret" 0 "alice" ⟨true, true, true, true⟩)
        = .error .expired
      ∧ verify_jwt_token "secret" 86400
          (create_jwt_token "secret" 0 "alice" ⟨true, true, true, true⟩)
        = none
      ∧ jwt_decode "secret" 86400
          ⟨⟨"mallory", ⟨true, true, true, true⟩, 86400⟩,
            (create_jwt_token "secret" 0 "alice" ⟨true, true, true, true⟩).sig⟩
        = .error .invalid) :=
  ⟨⟨by decide, by decide⟩,
    c7_token_lifecycle "secret" "alice" ⟨true, true, true, true⟩ 0 86400
      ⟨"mallory", ⟨true, true, true, true⟩, 86400⟩ (by decide) (by decide)⟩

/-- C8: a login attempt with an unknown username and one with a known
username but wrong password produce the same `(authenticated, message,
permissions)` response (given equal guard standing for the two
usernames), and each performs exactly the `record_failed_attempt` guard
interaction for its username. -/
theorem c8_failure_indistinguishable (checkpw : String → String → Bool)
    (cfg : BFConfig) (users : String → Option UserEntry) (s : BFState)
    (u1 u2 pw1 pw2 : String) (now : Nat) (e : UserEntry)
    (h1 : users u1 = none) (h2 : users u2 = some e)
    (hwrong : checkpw pw2 e.storedHash = false)
    (hl1 : s.lockouts u1 = none) (hl2 : s.lockouts u2 = none)
    (hfr : s.failed_attempts u1 = s.failed_attempts u2) :
    (authenticate_user checkpw cfg users s u1 pw1 now).2
      = (authenticate_user checkpw cfg users s u2 pw2 now).2
    ∧ (authenticate_user checkpw cfg users s u1 pw1 now).1
      = (record_failed_attempt cfg s u1 now).1
    ∧ (authenticate_user checkpw cfg users s u2 pw2 now).1
      = (record_failed_attempt cfg s u2 now).1 := by
  have hout := record_failed_output_eq cfg s s u1 u2 now hfr
  simp only [authenticate_user, is_locked_no_entry cfg s u1 now hl1,
    is_locked_no_entry cfg s u2 now hl2, h1, h2, hwrong]
  refine ⟨?_, rfl, rfl⟩
  simp [hout]

theorem c8_failure_indistinguishable_witness :
    ((fun (_ : String) (_ : String) => false) "pw2" (UserEntry.raw "h").storedHash
        = false
      ∧ (fun u => if u = "carol" then some (UserEntry.raw "h") else none) "dave" = none
      ∧ (fun u => if u = "carol" then some (UserEntry.raw "h") else none) "carol"
        = some (UserEntry.raw "h")
      ∧ BFState.init.lockouts "dave" = none
      ∧ BFState.init.lockouts "carol" = none
      ∧ BFState.init.failed_attempts "dave" = BFState.init.failed_attempts "carol")
    ∧ ((authenticate_user (fun _ _ => false) defaultBF
          (fun u => if u = "carol" then some (UserEntry.raw "h") else none)
          BFState.init "dave" "pw1" 7).2
        = (authenticate_user (fun _ _ => false) defaultBF
            (fun u => if u = "carol" then some (UserEntry.raw "h") else none)
            BFState.init "carol" "pw2" 7).2
      ∧ (authenticate_user (fun _ _ => false) defaultBF
          (fun u => if u = "carol" then some (UserEntry.raw "h") else none)
          BFState.init "dave" "pw1" 7).1
        = (record_failed_attempt defaultBF BFState.init "dave" 7).1
      ∧ (authenticate_user (fun _ _ => false) defaultBF
          (fun u => if u = "carol" then some (UserEntry.raw "h") else none)
          BFState.init "carol" "pw2" 7).1
        = (record_failed_attempt defaultBF BFState.init "carol" 7).1) :=
  ⟨⟨rfl, by decide, by decide, rfl, rfl, rfl⟩,
    c8_failure_indistinguishable (fun _ _ => false) defaultBF
      (fun u => if u = "carol" then some (UserEntry.raw "h") else none)
      BFState.init "dave" "carol" "pw1" "pw2" 7 (UserEntry.raw "h")
      (by decide) (by decide) rfl rfl rfl rfl⟩

/-- C9: when the recycle bin is enabled and the deleted file's name
collides with an entry already in the bin, the chosen destination is
`name (k).ext` for the smallest counter `k ≥ 1` whose candidate is not
yet present (the spec's scenario — bin holding `report.txt` and
`report (1).txt` — yields `report (2).txt`, as the witness instance
checks). -/
theorem c9_recycle_collision_rename (existing : List String)
    (item_name r : String) (hmem : item_name ∈ existing)
    (hdest : move_to_recycle_bin_dest true existing true item_name = some r) :
    r ∉ existing
    ∧ ∃ k, 1 ≤ k ∧ r = recycleCandidate true item_name k
        ∧ ∀ j, 1 ≤ j → j < k → recycleCandidate true item_name j ∈ existing := by
  rw [move_to_recycle_bin_dest, if_pos rfl] at hdest
  obtain ⟨hnot, hcase⟩ := nameLoop_spec existing _ _ _ _ _ hdest
  rcases hcase with heq | ⟨_, k, hk, hrk, hall⟩
  · exact absurd (heq ▸ hmem) hnot
  · exact ⟨hnot, k, hk, hrk, hall⟩

theorem c9_recycle_collision_rename_witness :
    ("report.txt" ∈ ["report.txt", "report (1).txt"]
      ∧ move_to_recycle_bin_dest true ["report.txt", "report (1).txt"] true
          "report.txt" = some "report (2).txt")
    ∧ ("report (2).txt" ∉ ["report.txt", "report (1).txt"]
      ∧ ∃ k, 1 ≤ k ∧ "report (2).txt" = recycleCandidate true "report.txt" k
          ∧ ∀ j, 1 ≤ j → j < k →
              recycleCandidate true "report.txt" j ∈ ["report.txt", "report (1).txt"]) :=
  ⟨⟨by decide, by decide⟩,
    c9_recycle_collision_rename ["report.txt", "report (1).txt"] "report.txt"
      "report (2).txt" (by decide) (by decide)⟩

/-- C10: the upload handler never overwrites: the name it writes to is
not among the directory's existing entries — the original filename when
free, otherwise `name (k).ext` for the smallest free counter `k ≥ 1` —
and the route's success response reports exactly the name used. -/
theorem c10_upload_no_overwrite (fs : String → Option FsNode)
    (listing : String → List String) (root path filename ap r : String)
    (hap : resolvePath root path = some ap) (hdir : fs ap = some .dir)
    (hdest : upload_dest_name (listing ap) filename = some r) :
    upload_file_route fs listing true root path filename = .ok r
    ∧ r ∉ listing ap
    ∧ (filename ∉ listing ap → r = filename)
    ∧ (filename ∈ listing ap → ∃ k, 1 ≤ k ∧ r = uploadCandidate filename k
        ∧ ∀ j, 1 ≤ j → j < k → uploadCandidate filename j ∈ listing ap) := by
  obtain ⟨hnot, hcase⟩ := nameLoop_spec (listing ap) _ _ _ _ _ hdest
  refine ⟨?_, hnot, ?_, ?_⟩
  · simp [upload_file_route, hap, hdir, hdest]
  · intro hfree
    rcases hcase with heq | ⟨hmem, _⟩
    · exact heq
    · exact absurd hmem hfree
  · intro hmem
    rcases hcase with heq | ⟨_, k, hk, hrk, hall⟩
    · exact absurd (heq ▸ hmem) hnot
    · exact ⟨k, hk, hrk, hall⟩

theorem c10_upload_no_overwrite_witness :
    (resolvePath "/srv/share" "" = some "/srv/share"
      ∧ (fun p => if p = "/srv/share" then some FsNode.dir else none) "/srv/share"
        = some FsNode.dir
      ∧ upload_dest_name ((fun (_ : String) => ["a.txt"]) "/srv/share") "a.txt"
        = some "a (1).txt")
    ∧ (upload_file_route (fun p => if p = "/srv/share" then some FsNode.dir else none)
          (fun _ => ["a.txt"]) true "/srv/share" "" "a.txt" = .ok "a (1).txt"
      ∧ "a (1).txt" ∉ (fun (_ : String) => ["a.txt"]) "/srv/share"
      ∧ ("a.txt" ∉ (fun (_ : String) => ["a.txt"]) "/srv/share" → "a (1).txt" = "a.txt")
      ∧ ("a.txt" ∈ (fun (_ : String) => ["a.txt"]) "/srv/share" →
          ∃ k, 1 ≤ k ∧ "a (1).txt" = uploadCandidate "a.txt" k
            ∧ ∀ j, 1 ≤ j → j < k →
                uploadCandidate "a.txt" j ∈ (fun (_ : String) => ["a.txt"]) "/srv/share")) :=
  ⟨⟨by decide, by decide, by decide⟩,
    c10_upload_no_overwrite (fun p => if p = "/srv/share" then some FsNode.dir else none)
      (fun _ => ["a.txt"]) "/srv/share" "" "a.txt" "/srv/share" "a (1).txt"
      (by decide) (by decide) (by decide)⟩

end QuickServe
